import Mathlib

/-!
# The D-Bus adaptor of update_engine (`dbus_service.cc`)

A shallow embedding of `DBusUpdateEngineService` and `UpdateEngineAdaptor`.

* The collaborator `UpdateEngineService` (`common_`) is a record of arbitrary
  functions over an abstract state; every call made on it is appended to a
  call log, so that "how many calls, with which arguments" can be stated.
* `ErrorPtr* error` is an in/out parameter of every method; an out-parameter
  keeps its old value unless the callee stores a new one.
* Signals sent by `UpdateEngineAdaptor` are appended to a signal log.
-/

namespace chromeos_update_engine

/-! ## Data model -/

/-- The C++ type double, kept as its 64-bit pattern. The adaptor only copies
values of this type, it never computes with them. -/
structure Double where
  bits : Nat
deriving DecidableEq, Repr

/-- The error object of `brillo::Error::Create(location, domain, code, message)`:
domain, code and message (the source location is tracing data only). -/
structure Error where
  domain : String
  code : String
  message : String
deriving DecidableEq, Repr

/-- The type `brillo::ErrorPtr`: null or an error object. -/
abbrev ErrorPtr := Option Error

/-- The call `brillo::Error::Create(FROM_HERE, domain, code, message)`. -/
def Error.Create (domain code message : String) : ErrorPtr :=
  some { domain := domain, code := code, message := message }

/-- Modelled from the spec: the enumeration `UpdateStatus` is declared in
`update_status.h`, which is not part of this file. A value is kept as its
numeric code (the enumeration has an integer underlying type). -/
structure UpdateStatus where
  code : Int
deriving DecidableEq, Repr

/-- Modelled from the spec: the wire enumeration `update_engine::Operation` is
generated from the proto schema, which is not part of this file. A value is
kept as its numeric code. -/
structure Operation where
  code : Int
deriving DecidableEq, Repr

/-- The cast `static_cast<Operation>(status)`: the numeric value is kept. -/
def UpdateStatus.toOperation (s : UpdateStatus) : Operation :=
  { code := s.code }

/-- The cast `static_cast<UpdateStatus>(operation)`: the numeric value is kept. -/
def Operation.toUpdateStatus (o : Operation) : UpdateStatus :=
  { code := o.code }

/-- Implicit conversion of a non-negative integer value to `int64_t`:
reduction modulo 2^64 into the range [-2^63, 2^63). It is the identity below
2^63. -/
def toInt64 (n : Nat) : Int :=
  ((n : Int) + 2 ^ 63) % 2 ^ 64 - 2 ^ 63

/-- Conversion of an integer value to a 32-bit pattern (an unsigned value
below 2^32); for a negative value this is its two's-complement pattern. -/
def toUInt32 (n : Int) : Nat :=
  (n % 2 ^ 32).toNat

/-- Modelled from the spec: `UpdateEngineStatus` (the StatusRecord) is declared
in `update_status.h`, which is not part of this file. These are the members
that `dbus_service.cc` reads: the last-checked time is an integer (seconds
since the epoch), the payload size is a non-negative integer of bytes. -/
structure UpdateEngineStatus where
  last_checked_time : Int
  progress : Double
  status : UpdateStatus
  new_version : String
  new_size_bytes : Nat
  is_enterprise_rollback : Bool
  is_install : Bool
deriving DecidableEq, Repr

/-- Modelled from the spec: the wire message `StatusResult` is generated from
the proto schema, which is not part of this file. These are the fields that
`dbus_service.cc` sets and reads; the two integer fields are signed 64-bit
(they are passed on as the int64 arguments of the legacy signal and call). -/
structure StatusResult where
  last_checked_time : Int
  progress : Double
  current_operation : Operation
  new_version : String
  new_size : Int
  is_enterprise_rollback : Bool
  is_install : Bool
deriving DecidableEq, Repr

/-- A default-constructed `StatusResult` (the local `StatusResult status;`):
every field has its proto default. -/
def StatusResult.init : StatusResult :=
  { last_checked_time := 0
    progress := { bits := 0 }
    current_operation := { code := 0 }
    new_version := ""
    new_size := 0
    is_enterprise_rollback := false
    is_install := false }

def StatusResult.set_last_checked_time (m : StatusResult) (v : Int) : StatusResult :=
  { m with last_checked_time := v }

def StatusResult.set_progress (m : StatusResult) (v : Double) : StatusResult :=
  { m with progress := v }

def StatusResult.set_current_operation (m : StatusResult) (v : Operation) : StatusResult :=
  { m with current_operation := v }

def StatusResult.set_new_version (m : StatusResult) (v : String) : StatusResult :=
  { m with new_version := v }

def StatusResult.set_new_size (m : StatusResult) (v : Int) : StatusResult :=
  { m with new_size := v }

def StatusResult.set_is_enterprise_rollback (m : StatusResult) (v : Bool) : StatusResult :=
  { m with is_enterprise_rollback := v }

def StatusResult.set_is_install (m : StatusResult) (v : Bool) : StatusResult :=
  { m with is_install := v }

/-- One entry of `DlcModuleList::dlc_module_infos()`; the adaptor reads only
its `dlc_id`. -/
structure DlcModuleInfo where
  dlc_id : String
deriving DecidableEq, Repr

/-- The request message of `AttemptInstall`. -/
structure DlcModuleList where
  dlc_module_infos : List DlcModuleInfo
  omaha_url : String
deriving DecidableEq, Repr

/-- Converts the internal |UpdateEngineStatus| to the protobuf |StatusResult|:
seven setters applied in sequence to the message `out_status` points to. The
payload size, a non-negative integer, is passed as the int64 argument of
`set_new_size`, hence through `toInt64`. -/
def ConvertToStatusResult (ue_status : UpdateEngineStatus) (out_status : StatusResult) :
    StatusResult :=
  let out_status := out_status.set_last_checked_time ue_status.last_checked_time
  let out_status := out_status.set_progress ue_status.progress
  let out_status := out_status.set_current_operation ue_status.status.toOperation
  let out_status := out_status.set_new_version ue_status.new_version
  let out_status := out_status.set_new_size (toInt64 ue_status.new_size_bytes)
  let out_status := out_status.set_is_enterprise_rollback ue_status.is_enterprise_rollback
  let out_status := out_status.set_is_install ue_status.is_install
  out_status

/-! ## The collaborator `UpdateEngineService` -/

/-- What a method of `UpdateEngineService` leaves behind: its boolean return
value, the content of `*error` after the call, the value it stored through
its out-pointer (`none` when it stored nothing) and its own new state. -/
structure Reply (α σ : Type) where
  ret : Bool
  error : ErrorPtr
  out : Option α
  state : σ

/-- The collaborator behind `common_`, over an abstract state `σ`. Each method
receives the content of `*error` before the call, its arguments and the state. -/
structure UpdateEngineService (σ : Type) where
  AttemptUpdate : ErrorPtr → String → String → Int → σ → Reply Bool σ
  AttemptInstall : ErrorPtr → String → List String → σ → Reply Unit σ
  AttemptRollback : ErrorPtr → Bool → σ → Reply Unit σ
  CanRollback : ErrorPtr → σ → Reply Bool σ
  ResetStatus : ErrorPtr → σ → Reply Unit σ
  GetStatus : ErrorPtr → σ → Reply UpdateEngineStatus σ
  RebootIfNeeded : ErrorPtr → σ → Reply Unit σ
  SetChannel : ErrorPtr → String → Bool → σ → Reply Unit σ
  GetChannel : ErrorPtr → Bool → σ → Reply String σ
  GetCohortHint : ErrorPtr → σ → Reply String σ
  SetCohortHint : ErrorPtr → String → σ → Reply Unit σ
  SetP2PUpdatePermission : ErrorPtr → Bool → σ → Reply Unit σ
  GetP2PUpdatePermission : ErrorPtr → σ → Reply Bool σ
  SetUpdateOverCellularPermission : ErrorPtr → Bool → σ → Reply Unit σ
  SetUpdateOverCellularTarget : ErrorPtr → String → Int → σ → Reply Unit σ
  GetUpdateOverCellularPermission : ErrorPtr → σ → Reply Bool σ
  GetDurationSinceUpdate : ErrorPtr → σ → Reply Int σ
  GetPrevVersion : ErrorPtr → σ → Reply String σ
  GetRollbackPartition : ErrorPtr → σ → Reply String σ
  GetLastAttemptError : ErrorPtr → σ → Reply Int σ
  GetEolStatus : ErrorPtr → σ → Reply Int σ

/-- One call made on `common_`, with the arguments passed by value. -/
inductive Call where
  | AttemptUpdate (in_app_version in_omaha_url : String) (in_flags_as_int : Int)
  | AttemptInstall (omaha_url : String) (dlc_ids : List String)
  | AttemptRollback (in_powerwash : Bool)
  | CanRollback
  | ResetStatus
  | GetStatus
  | RebootIfNeeded
  | SetChannel (in_target_channel : String) (in_is_powerwash_allowed : Bool)
  | GetChannel (in_get_current_channel : Bool)
  | GetCohortHint
  | SetCohortHint (in_cohort_hint : String)
  | SetP2PUpdatePermission (in_enabled : Bool)
  | GetP2PUpdatePermission
  | SetUpdateOverCellularPermission (in_allowed : Bool)
  | SetUpdateOverCellularTarget (target_version : String) (target_size : Int)
  | GetUpdateOverCellularPermission
  | GetDurationSinceUpdate
  | GetPrevVersion
  | GetRollbackPartition
  | GetLastAttemptError
  | GetEolStatus
deriving DecidableEq, Repr

/-- The state a method of `DBusUpdateEngineService` runs in: the state of
`*common_` and the log of the calls made on it so far, oldest first. -/
structure World (σ : Type) where
  common : σ
  calls : List Call

/-- What a method of `DBusUpdateEngineService` leaves behind: its boolean
return value, the content of `*error`, the content of the caller's
out-parameter(s) and the world after the call. -/
structure Outcome (α σ : Type) where
  ret : Bool
  error : ErrorPtr
  out : α
  world : World σ

/-- The statement `return common_->Method(error, args..., out);`: the call
`c` is logged, the reply `r` of the collaborator becomes the outcome, and the
caller's out-parameter keeps its old value `out` unless the callee stored one. -/
def delegate {α σ : Type} (w : World σ) (c : Call) (r : Reply α σ) (out : α) : Outcome α σ :=
  { ret := r.ret
    error := r.error
    out := r.out.getD out
    world := { common := r.state, calls := w.calls ++ [c] } }

/-! ## `DBusUpdateEngineService` -/

/-- Modelled from the spec: the constant `update_engine::kAttemptUpdateFlagNonInteractive`
is declared in `dbus-constants.h`, which is not part of this file. By the flag
encoding of the spec it is bit 0. -/
def kAttemptUpdateFlagNonInteractive : Nat := 1

section Service

variable {σ : Type}

/-- The method `DBusUpdateEngineService::AttemptUpdateWithFlags`. The constant
`UpdateAttemptFlags::kFlagNonInteractive` is declared outside this file and is
the parameter `kFlagNonInteractive`. The local `result` is never read. -/
def AttemptUpdateWithFlags (common_ : UpdateEngineService σ) (kFlagNonInteractive : Int)
    (w : World σ) (error : ErrorPtr) (in_app_version in_omaha_url : String)
    (in_flags_as_int : Int) : Outcome Unit σ :=
  let flags : Nat := toUInt32 in_flags_as_int
  let interactive : Bool := !(decide (flags &&& kAttemptUpdateFlagNonInteractive ≠ 0))
  let arg : Int := if interactive then 0 else kFlagNonInteractive
  let r := common_.AttemptUpdate error in_app_version in_omaha_url arg w.common
  { ret := r.ret
    error := r.error
    out := ()
    world := { common := r.state
               calls := w.calls ++ [Call.AttemptUpdate in_app_version in_omaha_url arg] } }

/-- The method `DBusUpdateEngineService::AttemptUpdate`. -/
def AttemptUpdate (common_ : UpdateEngineService σ) (kFlagNonInteractive : Int)
    (w : World σ) (error : ErrorPtr) (in_app_version in_omaha_url : String) : Outcome Unit σ :=
  AttemptUpdateWithFlags common_ kFlagNonInteractive w error in_app_version in_omaha_url 0

/-- The loop of `AttemptInstall` over `request.dlc_module_infos()`, started
with the ids pushed so far: `none` when an entry with an empty id is reached
(the early return), else the final content of `dlc_ids`. -/
def collectDlcIds : List DlcModuleInfo → List String → Option (List String)
  | [], dlc_ids => some dlc_ids
  | dlc_module_info :: rest, dlc_ids =>
    if dlc_module_info.dlc_id = "" then none
    else collectDlcIds rest (dlc_ids ++ [dlc_module_info.dlc_id])

/-- The method `DBusUpdateEngineService::AttemptInstall`. -/
def AttemptInstall (common_ : UpdateEngineService σ) (w : World σ) (error : ErrorPtr)
    (request : DlcModuleList) : Outcome Unit σ :=
  match collectDlcIds request.dlc_module_infos [] with
  | none =>
    { ret := false
      error := Error.Create "update_engine" "INTERNAL" "Empty DLC ID passed."
      out := ()
      world := w }
  | some dlc_ids =>
    delegate w (Call.AttemptInstall request.omaha_url dlc_ids)
      (common_.AttemptInstall error request.omaha_url dlc_ids w.common) ()

/-- The method `DBusUpdateEngineService::AttemptRollback`. -/
def AttemptRollback (common_ : UpdateEngineService σ) (w : World σ) (error : ErrorPtr)
    (in_powerwash : Bool) : Outcome Unit σ :=
  delegate w (Call.AttemptRollback in_powerwash)
    (common_.AttemptRollback error in_powerwash w.common) ()

/-- The method `DBusUpdateEngineService::CanRollback`. -/
def CanRollback (common_ : UpdateEngineService σ) (w : World σ) (error : ErrorPtr)
    (out_can_rollback : Bool) : Outcome Bool σ :=
  delegate w Call.CanRollback (common_.CanRollback error w.common) out_can_rollback

/-- The method `DBusUpdateEngineService::ResetStatus`. -/
def ResetStatus (common_ : UpdateEngineService σ) (w : World σ) (error : ErrorPtr) :
    Outcome Unit σ :=
  delegate w Call.ResetStatus (common_.ResetStatus error w.common) ()

/-- The five out-parameters of the legacy `GetStatus`. -/
structure StatusOut where
  out_last_checked_time : Int
  out_progress : Double
  out_current_operation : String
  out_new_version : String
  out_new_size : Int
deriving DecidableEq, Repr

/-- The method `DBusUpdateEngineService::GetStatus`. The function
`UpdateStatusToString` is declared outside this file and is a parameter;
`status` is the content of the local `UpdateEngineStatus status;` before the
call, `out` the content of the five out-parameters before the call. The
payload size is stored through `int64_t* out_new_size`, hence through
`toInt64`. -/
def GetStatus (common_ : UpdateEngineService σ) (UpdateStatusToString : UpdateStatus → String)
    (status : UpdateEngineStatus) (w : World σ) (error : ErrorPtr) (out : StatusOut) :
    Outcome StatusOut σ :=
  let r := common_.GetStatus error w.common
  let status := r.out.getD status
  let w : World σ := { common := r.state, calls := w.calls ++ [Call.GetStatus] }
  if !r.ret then
    { ret := false, error := r.error, out := out, world := w }
  else
    let out := { out with out_last_checked_time := status.last_checked_time }
    let out := { out with out_progress := status.progress }
    let out := { out with out_current_operation := UpdateStatusToString status.status }
    let out := { out with out_new_version := status.new_version }
    let out := { out with out_new_size := toInt64 status.new_size_bytes }
    { ret := true, error := r.error, out := out, world := w }

/-- The method `DBusUpdateEngineService::GetStatusAdvanced`; `status` is the
content of the local `UpdateEngineStatus status;` before the call. -/
def GetStatusAdvanced (common_ : UpdateEngineService σ) (status : UpdateEngineStatus)
    (w : World σ) (error : ErrorPtr) (out_status : StatusResult) : Outcome StatusResult σ :=
  let r := common_.GetStatus error w.common
  let status := r.out.getD status
  let w : World σ := { common := r.state, calls := w.calls ++ [Call.GetStatus] }
  if !r.ret then
    { ret := false, error := r.error, out := out_status, world := w }
  else
    { ret := true, error := r.error, out := ConvertToStatusResult status out_status, world := w }

/-- The method `DBusUpdateEngineService::RebootIfNeeded`. -/
def RebootIfNeeded (common_ : UpdateEngineService σ) (w : World σ) (error : ErrorPtr) :
    Outcome Unit σ :=
  delegate w Call.RebootIfNeeded (common_.RebootIfNeeded error w.common) ()

/-- The method `DBusUpdateEngineService::SetChannel`. -/
def SetChannel (common_ : UpdateEngineService σ) (w : World σ) (error : ErrorPtr)
    (in_target_channel : String) (in_is_powerwash_allowed : Bool) : Outcome Unit σ :=
  delegate w (Call.SetChannel in_target_channel in_is_powerwash_allowed)
    (common_.SetChannel error in_target_channel in_is_powerwash_allowed w.common) ()

/-- The method `DBusUpdateEngineService::GetChannel`. -/
def GetChannel (common_ : UpdateEngineService σ) (w : World σ) (error : ErrorPtr)
    (in_get_current_channel : Bool) (out_channel : String) : Outcome String σ :=
  delegate w (Call.GetChannel in_get_current_channel)
    (common_.GetChannel error in_get_current_channel w.common) out_channel

/-- The method `DBusUpdateEngineService::GetCohortHint`. -/
def GetCohortHint (common_ : UpdateEngineService σ) (w : World σ) (error : ErrorPtr)
    (out_cohort_hint : String) : Outcome String σ :=
  delegate w Call.GetCohortHint (common_.GetCohortHint error w.common) out_cohort_hint

/-- The method `DBusUpdateEngineService::SetCohortHint`. -/
def SetCohortHint (common_ : UpdateEngineService σ) (w : World σ) (error : ErrorPtr)
    (in_cohort_hint : String) : Outcome Unit σ :=
  delegate w (Call.SetCohortHint in_cohort_hint)
    (common_.SetCohortHint error in_cohort_hint w.common) ()

/-- The method `DBusUpdateEngineService::SetP2PUpdatePermission`. -/
def SetP2PUpdatePermission (common_ : UpdateEngineService σ) (w : World σ) (error : ErrorPtr)
    (in_enabled : Bool) : Outcome Unit σ :=
  delegate w (Call.SetP2PUpdatePermission in_enabled)
    (common_.SetP2PUpdatePermission error in_enabled w.common) ()

/-- The method `DBusUpdateEngineService::GetP2PUpdatePermission`. -/
def GetP2PUpdatePermission (common_ : UpdateEngineService σ) (w : World σ) (error : ErrorPtr)
    (out_enabled : Bool) : Outcome Bool σ :=
  delegate w Call.GetP2PUpdatePermission (common_.GetP2PUpdatePermission error w.common)
    out_enabled

/-- The method `DBusUpdateEngineService::SetUpdateOverCellularPermission`. -/
def SetUpdateOverCellularPermission (common_ : UpdateEngineService σ) (w : World σ)
    (error : ErrorPtr) (in_allowed : Bool) : Outcome Unit σ :=
  delegate w (Call.SetUpdateOverCellularPermission in_allowed)
    (common_.SetUpdateOverCellularPermission error in_allowed w.common) ()

/-- The method `DBusUpdateEngineService::SetUpdateOverCellularTarget`. -/
def SetUpdateOverCellularTarget (common_ : UpdateEngineService σ) (w : World σ)
    (error : ErrorPtr) (target_version : String) (target_size : Int) : Outcome Unit σ :=
  delegate w (Call.SetUpdateOverCellularTarget target_version target_size)
    (common_.SetUpdateOverCellularTarget error target_version target_size w.common) ()

/-- The method `DBusUpdateEngineService::GetUpdateOverCellularPermission`. -/
def GetUpdateOverCellularPermission (common_ : UpdateEngineService σ) (w : World σ)
    (error : ErrorPtr) (out_allowed : Bool) : Outcome Bool σ :=
  delegate w Call.GetUpdateOverCellularPermission
    (common_.GetUpdateOverCellularPermission error w.common) out_allowed

/-- The method `DBusUpdateEngineService::GetDurationSinceUpdate`. -/
def GetDurationSinceUpdate (common_ : UpdateEngineService σ) (w : World σ) (error : ErrorPtr)
    (out_usec_wallclock : Int) : Outcome Int σ :=
  delegate w Call.GetDurationSinceUpdate (common_.GetDurationSinceUpdate error w.common)
    out_usec_wallclock

/-- The method `DBusUpdateEngineService::GetPrevVersion`. -/
def GetPrevVersion (common_ : UpdateEngineService σ) (w : World σ) (error : ErrorPtr)
    (out_prev_version : String) : Outcome String σ :=
  delegate w Call.GetPrevVersion (common_.GetPrevVersion error w.common) out_prev_version

/-- The method `DBusUpdateEngineService::GetRollbackPartition`. -/
def GetRollbackPartition (common_ : UpdateEngineService σ) (w : World σ) (error : ErrorPtr)
    (out_rollback_partition_name : String) : Outcome String σ :=
  delegate w Call.GetRollbackPartition (common_.GetRollbackPartition error w.common)
    out_rollback_partition_name

/-- The method `DBusUpdateEngineService::GetLastAttemptError`. -/
def GetLastAttemptError (common_ : UpdateEngineService σ) (w : World σ) (error : ErrorPtr)
    (out_last_attempt_error : Int) : Outcome Int σ :=
  delegate w Call.GetLastAttemptError (common_.GetLastAttemptError error w.common)
    out_last_attempt_error

/-- The method `DBusUpdateEngineService::GetEolStatus`. -/
def GetEolStatus (common_ : UpdateEngineService σ) (w : World σ) (error : ErrorPtr)
    (out_eol_status : Int) : Outcome Int σ :=
  delegate w Call.GetEolStatus (common_.GetEolStatus error w.common) out_eol_status

end Service

/-! ## `UpdateEngineAdaptor` -/

/-- A signal sent on the bus by the generated adaptor: the legacy
`StatusUpdate` with its five arguments, or `StatusUpdateAdvanced` with the
wire message. -/
inductive Signal where
  | StatusUpdate (last_checked_time : Int) (progress : Double) (current_operation : String)
      (new_version : String) (new_size : Int)
  | StatusUpdateAdvanced (status : StatusResult)
deriving DecidableEq, Repr

/-- The method `UpdateEngineAdaptor::SendStatusUpdate`, over the log of the
signals sent so far (oldest first). The function `UpdateStatusToString` is
declared outside this file and is a parameter. -/
def SendStatusUpdate (UpdateStatusToString : UpdateStatus → String) (signals : List Signal)
    (update_engine_status : UpdateEngineStatus) : List Signal :=
  let status := ConvertToStatusResult update_engine_status StatusResult.init
  let signals := signals ++ [Signal.StatusUpdate status.last_checked_time status.progress
    (UpdateStatusToString status.current_operation.toUpdateStatus) status.new_version
    status.new_size]
  let signals := signals ++ [Signal.StatusUpdateAdvanced status]
  signals

/-! ## Specification predicates -/

/-- The outcome `o` of a method run in the world `w` is that of one call `c`
on the collaborator with reply `r`: the call log grew by exactly `c`, the
collaborator is in the state the reply left, the return value and the error
are those of the reply, and the out-parameter holds what the reply stored
(its old value `out` when the reply stored nothing). -/
def ForwardsOnce {α σ : Type} (w : World σ) (c : Call) (r : Reply α σ) (out : α)
    (o : Outcome α σ) : Prop :=
  o.world.calls = w.calls ++ [c] ∧ o.world.common = r.state ∧ o.ret = r.ret ∧
    o.error = r.error ∧ o.out = r.out.getD out

/-- The outcome `o` of a method run in the world `w` comes from one
application of the collaborator, the call `c` with reply `r`: the call log
grew by exactly `c`, the collaborator is in the state that reply left, and
the return value and the error are those of that reply. (A second application,
or none, would leave another state, return value or error.) -/
def CallsOnce {α β σ : Type} (w : World σ) (c : Call) (r : Reply α σ) (o : Outcome β σ) :
    Prop :=
  o.world.calls = w.calls ++ [c] ∧ o.world.common = r.state ∧ o.ret = r.ret ∧
    o.error = r.error

/-! ## Test doubles, used to instantiate the theorems at concrete inputs -/

/-- The reply of the test double: it succeeds or fails as `ok` says, stores
`out` only when it succeeds, replaces the error only when it fails, and counts
the calls it has received in its state. -/
def stubReply {α : Type} (ok : Bool) (error : ErrorPtr) (out : Option α) (n : Nat) :
    Reply α Nat :=
  { ret := ok
    error := if ok then error else Error.Create "stub" "FAILED" "refused"
    out := if ok then out else none
    state := n + 1 }

/-- A test double for `UpdateEngineService`: every method answers with
`stubReply ok`, and `GetStatus` reports `st`. -/
def stubService (ok : Bool) (st : UpdateEngineStatus) : UpdateEngineService Nat :=
  { AttemptUpdate := fun e _ _ _ n => stubReply ok e (some true) n
    AttemptInstall := fun e _ _ n => stubReply ok e none n
    AttemptRollback := fun e _ n => stubReply ok e none n
    CanRollback := fun e n => stubReply ok e (some true) n
    ResetStatus := fun e n => stubReply ok e none n
    GetStatus := fun e n => stubReply ok e (some st) n
    RebootIfNeeded := fun e n => stubReply ok e none n
    SetChannel := fun e _ _ n => stubReply ok e none n
    GetChannel := fun e _ n => stubReply ok e (some "stable-channel") n
    GetCohortHint := fun e n => stubReply ok e (some "hint") n
    SetCohortHint := fun e _ n => stubReply ok e none n
    SetP2PUpdatePermission := fun e _ n => stubReply ok e none n
    GetP2PUpdatePermission := fun e n => stubReply ok e (some false) n
    SetUpdateOverCellularPermission := fun e _ n => stubReply ok e none n
    SetUpdateOverCellularTarget := fun e _ _ n => stubReply ok e none n
    GetUpdateOverCellularPermission := fun e n => stubReply ok e (some true) n
    GetDurationSinceUpdate := fun e n => stubReply ok e (some 1500000) n
    GetPrevVersion := fun e n => stubReply ok e (some "1.2.2") n
    GetRollbackPartition := fun e n => stubReply ok e (some "KERN-B") n
    GetLastAttemptError := fun e n => stubReply ok e (some 0) n
    GetEolStatus := fun e n => stubReply ok e (some 0) n }

/-- A test double for `UpdateStatusToString`. -/
def stubUpdateStatusToString (s : UpdateStatus) : String :=
  if s.code = 0 then "IDLE" else if s.code = 3 then "DOWNLOADING" else "OTHER"

/-- A status record used at the concrete instances. -/
def sampleStatus : UpdateEngineStatus :=
  { last_checked_time := 1600000000
    progress := { bits := 4602678819172646912 }
    status := { code := 3 }
    new_version := "1.2.3"
    new_size_bytes := 4096
    is_enterprise_rollback := false
    is_install := true }

/-- A status record whose payload size is 2^63 bytes. -/
def hugeStatus : UpdateEngineStatus :=
  { sampleStatus with new_size_bytes := 2 ^ 63 }

/-- The world before any call, with the test double in state 0. -/
def emptyWorld : World Nat :=
  { common := 0, calls := [] }

/-! ## Lemmas -/

theorem toUInt32_and_one (f : Int) :
    toUInt32 f &&& kAttemptUpdateFlagNonInteractive = (f % 2).toNat := by
  unfold toUInt32 kAttemptUpdateFlagNonInteractive
  rw [Nat.and_one_is_mod]
  omega

theorem nonInteractive_iff (f : Int) :
    (toUInt32 f &&& kAttemptUpdateFlagNonInteractive ≠ 0) ↔ f % 2 = 1 := by
  rw [toUInt32_and_one]
  omega

theorem toInt64_of_lt (n : Nat) (h : n < 2 ^ 63) : toInt64 n = n := by
  unfold toInt64
  omega

theorem attemptUpdateWithFlags_eq {σ : Type} (common_ : UpdateEngineService σ)
    (kFlagNonInteractive : Int) (w : World σ) (error : ErrorPtr) (v u : String) (f : Int) :
    AttemptUpdateWithFlags common_ kFlagNonInteractive w error v u f =
      { ret := (common_.AttemptUpdate error v u
          (if f % 2 = 1 then kFlagNonInteractive else 0) w.common).ret
        error := (common_.AttemptUpdate error v u
          (if f % 2 = 1 then kFlagNonInteractive else 0) w.common).error
        out := ()
        world :=
          { common := (common_.AttemptUpdate error v u
              (if f % 2 = 1 then kFlagNonInteractive else 0) w.common).state
            calls := w.calls ++
              [Call.AttemptUpdate v u (if f % 2 = 1 then kFlagNonInteractive else 0)] } } := by
  unfold AttemptUpdateWithFlags
  by_cases h : f % 2 = 1
  · have h1 : toUInt32 f &&& kAttemptUpdateFlagNonInteractive ≠ 0 :=
      (nonInteractive_iff f).mpr h
    simp [h, h1]
  · have h1 : ¬ (toUInt32 f &&& kAttemptUpdateFlagNonInteractive ≠ 0) :=
      fun hc => h ((nonInteractive_iff f).mp hc)
    simp only [ne_eq, not_not] at h1
    simp [h, h1]

theorem collectDlcIds_of_empty_id (infos : List DlcModuleInfo) (dlc_ids : List String)
    (h : ∃ m ∈ infos, m.dlc_id = "") : collectDlcIds infos dlc_ids = none := by
  induction infos generalizing dlc_ids with
  | nil => simp at h
  | cons m rest ih =>
    unfold collectDlcIds
    by_cases hm : m.dlc_id = ""
    · simp [hm]
    · have hrest : ∃ m ∈ rest, m.dlc_id = "" := by
        obtain ⟨x, hx, hxe⟩ := h
        rcases List.mem_cons.mp hx with hxm | hxr
        · exact absurd (hxm ▸ hxe) hm
        · exact ⟨x, hxr, hxe⟩
      simp [hm, ih _ hrest]

theorem collectDlcIds_of_nonempty_ids (infos : List DlcModuleInfo) (dlc_ids : List String)
    (h : ∀ m ∈ infos, m.dlc_id ≠ "") :
    collectDlcIds infos dlc_ids = some (dlc_ids ++ infos.map DlcModuleInfo.dlc_id) := by
  induction infos generalizing dlc_ids with
  | nil => simp [collectDlcIds]
  | cons m rest ih =>
    unfold collectDlcIds
    have hm : m.dlc_id ≠ "" := h m (List.mem_cons_self m rest)
    have hrest : ∀ x ∈ rest, x.dlc_id ≠ "" := fun x hx => h x (List.mem_cons_of_mem m hx)
    simp [hm, ih _ hrest]

theorem convertToStatusResult_eq (s : UpdateEngineStatus) (m : StatusResult) :
    ConvertToStatusResult s m =
      { last_checked_time := s.last_checked_time
        progress := s.progress
        current_operation := { code := s.status.code }
        new_version := s.new_version
        new_size := toInt64 s.new_size_bytes
        is_enterprise_rollback := s.is_enterprise_rollback
        is_install := s.is_install } := rfl

theorem toUpdateStatus_toOperation (st : UpdateStatus) : st.toOperation.toUpdateStatus = st := rfl

theorem sendStatusUpdate_eq (UpdateStatusToString : UpdateStatus → String)
    (signals : List Signal) (s : UpdateEngineStatus) :
    SendStatusUpdate UpdateStatusToString signals s =
      signals ++
        [Signal.StatusUpdate s.last_checked_time s.progress (UpdateStatusToString s.status)
            s.new_version (toInt64 s.new_size_bytes),
          Signal.StatusUpdateAdvanced (ConvertToStatusResult s StatusResult.init)] := by
  simp [SendStatusUpdate, convertToStatusResult_eq, Operation.toUpdateStatus]

theorem forwardsOnce_delegate {α σ : Type} (w : World σ) (c : Call) (r : Reply α σ) (out : α) :
    ForwardsOnce w c r out (delegate w c r out) :=
  ⟨rfl, rfl, rfl, rfl, rfl⟩

/-! ## The claims -/

/-- C1: for every flags value `f` (every integer, so every signed 32-bit value,
negative ones included) and every version and URL, `AttemptUpdateWithFlags`
appends exactly one call to the call log, `AttemptUpdate` with the same version
and URL, whose flags argument is `kFlagNonInteractive` when bit 0 of `f` is 1
and 0 when bit 0 of `f` is 0; it returns what that call returned; and two
values `f` and `g` that agree on bit 0 give the same outcome. -/
theorem C1_attemptUpdateWithFlags_bit0 {σ : Type} (common_ : UpdateEngineService σ)
    (kFlagNonInteractive : Int) (w : World σ) (error : ErrorPtr) (v u : String) :
    (∀ f : Int,
      (AttemptUpdateWithFlags common_ kFlagNonInteractive w error v u f).world.calls =
          w.calls ++ [Call.AttemptUpdate v u (if f % 2 = 1 then kFlagNonInteractive else 0)] ∧
        (AttemptUpdateWithFlags common_ kFlagNonInteractive w error v u f).ret =
          (common_.AttemptUpdate error v u
            (if f % 2 = 1 then kFlagNonInteractive else 0) w.common).ret ∧
        (AttemptUpdateWithFlags common_ kFlagNonInteractive w error v u f).error =
          (common_.AttemptUpdate error v u
            (if f % 2 = 1 then kFlagNonInteractive else 0) w.common).error ∧
        (AttemptUpdateWithFlags common_ kFlagNonInteractive w error v u f).world.common =
          (common_.AttemptUpdate error v u
            (if f % 2 = 1 then kFlagNonInteractive else 0) w.common).state) ∧
    (∀ f g : Int, f % 2 = g % 2 →
      AttemptUpdateWithFlags common_ kFlagNonInteractive w error v u f =
        AttemptUpdateWithFlags common_ kFlagNonInteractive w error v u g) := by
  refine ⟨fun f => ?_, fun f g h => ?_⟩
  · rw [attemptUpdateWithFlags_eq]
    exact ⟨rfl, rfl, rfl, rfl⟩
  · rw [attemptUpdateWithFlags_eq, attemptUpdateWithFlags_eq, h]

/-- C1 at concrete inputs: the flags -1 (all bits set) and 1 agree on bit 0 and
give the same outcome, one call carrying the marker 1; the flags -2 give one
call carrying 0. -/
theorem C1_attemptUpdateWithFlags_bit0_witness :
    ((-1 : Int) % 2 = 1 % 2) ∧
    AttemptUpdateWithFlags (stubService true sampleStatus) 1 emptyWorld none "1.0" "http://x" (-1) =
      AttemptUpdateWithFlags (stubService true sampleStatus) 1 emptyWorld none "1.0" "http://x" 1 ∧
    (AttemptUpdateWithFlags (stubService true sampleStatus) 1 emptyWorld none "1.0" "http://x"
      (-1)).world.calls = [Call.AttemptUpdate "1.0" "http://x" 1] ∧
    (AttemptUpdateWithFlags (stubService true sampleStatus) 1 emptyWorld none "1.0" "http://x"
      (-2)).world.calls = [Call.AttemptUpdate "1.0" "http://x" 0] :=
  ⟨by decide,
   (C1_attemptUpdateWithFlags_bit0 (stubService true sampleStatus) 1 emptyWorld none
      "1.0" "http://x").2 (-1) 1 (by decide),
   by decide, by decide⟩

/-- C7: for every version `v` and URL `u`, `AttemptUpdate(v, u)` has the same
outcome as `AttemptUpdateWithFlags(v, u, 0)`: exactly one call is appended to
the call log, `AttemptUpdate` with `v`, `u` and flags argument 0, and the
return value and error are those of that call. -/
theorem C7_attemptUpdate_is_flags_zero {σ : Type} (common_ : UpdateEngineService σ)
    (kFlagNonInteractive : Int) (w : World σ) (error : ErrorPtr) (v u : String) :
    AttemptUpdate common_ kFlagNonInteractive w error v u =
        AttemptUpdateWithFlags common_ kFlagNonInteractive w error v u 0 ∧
      (AttemptUpdate common_ kFlagNonInteractive w error v u).world.calls =
        w.calls ++ [Call.AttemptUpdate v u 0] ∧
      (AttemptUpdate common_ kFlagNonInteractive w error v u).ret =
        (common_.AttemptUpdate error v u 0 w.common).ret ∧
      (AttemptUpdate common_ kFlagNonInteractive w error v u).error =
        (common_.AttemptUpdate error v u 0 w.common).error ∧
      (AttemptUpdate common_ kFlagNonInteractive w error v u).world.common =
        (common_.AttemptUpdate error v u 0 w.common).state := by
  have h : AttemptUpdate common_ kFlagNonInteractive w error v u =
      AttemptUpdateWithFlags common_ kFlagNonInteractive w error v u 0 := rfl
  rw [h, attemptUpdateWithFlags_eq]
  simp

/-- C2: for every install request whose module list contains an entry with an
empty id, at any position, `AttemptInstall` returns false, sets the error to
the one created locally with domain "update_engine", code "INTERNAL" and
message "Empty DLC ID passed.", and leaves the world as it was: no call is
made on the collaborator and its state is untouched. -/
theorem C2_attemptInstall_rejects_empty_id {σ : Type} (common_ : UpdateEngineService σ)
    (w : World σ) (error : ErrorPtr) (request : DlcModuleList)
    (h : ∃ m ∈ request.dlc_module_infos, m.dlc_id = "") :
    (AttemptInstall common_ w error request).ret = false ∧
      (AttemptInstall common_ w error request).error =
        some { domain := "update_engine", code := "INTERNAL", message := "Empty DLC ID passed." } ∧
      (AttemptInstall common_ w error request).world.calls = w.calls ∧
      (AttemptInstall common_ w error request).world.common = w.common := by
  unfold AttemptInstall
  rw [collectDlcIds_of_empty_id _ _ h]
  exact ⟨rfl, rfl, rfl, rfl⟩

/-- C2 at a concrete input: the ids "a", "", "b" (an empty id after a valid
one) are rejected without any call, even by a collaborator that would succeed. -/
theorem C2_attemptInstall_rejects_empty_id_witness :
    (∃ m ∈ [DlcModuleInfo.mk "a", DlcModuleInfo.mk "", DlcModuleInfo.mk "b"], m.dlc_id = "") ∧
    (AttemptInstall (stubService true sampleStatus) emptyWorld none
      { dlc_module_infos := [DlcModuleInfo.mk "a", DlcModuleInfo.mk "", DlcModuleInfo.mk "b"]
        omaha_url := "http://x" }).ret = false ∧
    (AttemptInstall (stubService true sampleStatus) emptyWorld none
      { dlc_module_infos := [DlcModuleInfo.mk "a", DlcModuleInfo.mk "", DlcModuleInfo.mk "b"]
        omaha_url := "http://x" }).error =
      some { domain := "update_engine", code := "INTERNAL", message := "Empty DLC ID passed." } ∧
    (AttemptInstall (stubService true sampleStatus) emptyWorld none
      { dlc_module_infos := [DlcModuleInfo.mk "a", DlcModuleInfo.mk "", DlcModuleInfo.mk "b"]
        omaha_url := "http://x" }).world.calls = [] ∧
    (AttemptInstall (stubService true sampleStatus) emptyWorld none
      { dlc_module_infos := [DlcModuleInfo.mk "a", DlcModuleInfo.mk "", DlcModuleInfo.mk "b"]
        omaha_url := "http://x" }).world.common = 0 :=
  ⟨by decide,
   C2_attemptInstall_rejects_empty_id (stubService true sampleStatus) emptyWorld none
     { dlc_module_infos := [DlcModuleInfo.mk "a", DlcModuleInfo.mk "", DlcModuleInfo.mk "b"]
       omaha_url := "http://x" } (by decide)⟩

/-- C3: for every install request in which all module ids are non-empty,
`AttemptInstall` appends exactly one call to the call log, `AttemptInstall`
with the URL of the request and the list of its ids in the same order (so of
the same length, entry by entry the id of the entry of the request), and its
return value and error are those of that call. -/
theorem C3_attemptInstall_delegates_ids {σ : Type} (common_ : UpdateEngineService σ)
    (w : World σ) (error : ErrorPtr) (request : DlcModuleList)
    (h : ∀ m ∈ request.dlc_module_infos, m.dlc_id ≠ "") :
    (AttemptInstall common_ w error request).world.calls =
        w.calls ++ [Call.AttemptInstall request.omaha_url
          (request.dlc_module_infos.map DlcModuleInfo.dlc_id)] ∧
      (request.dlc_module_infos.map DlcModuleInfo.dlc_id).length =
        request.dlc_module_infos.length ∧
      (AttemptInstall common_ w error request).ret =
        (common_.AttemptInstall error request.omaha_url
          (request.dlc_module_infos.map DlcModuleInfo.dlc_id) w.common).ret ∧
      (AttemptInstall common_ w error request).error =
        (common_.AttemptInstall error request.omaha_url
          (request.dlc_module_infos.map DlcModuleInfo.dlc_id) w.common).error ∧
      (AttemptInstall common_ w error request).world.common =
        (common_.AttemptInstall error request.omaha_url
          (request.dlc_module_infos.map DlcModuleInfo.dlc_id) w.common).state := by
  unfold AttemptInstall
  rw [collectDlcIds_of_nonempty_ids _ _ h]
  simp [delegate]

/-- C3 at the input of the spec: the ids "a", "b" with the URL "http://x" are
passed on as exactly "a", "b", and the failure of the collaborator is returned. -/
theorem C3_attemptInstall_delegates_ids_witness :
    (∀ m ∈ [DlcModuleInfo.mk "a", DlcModuleInfo.mk "b"], m.dlc_id ≠ "") ∧
    (AttemptInstall (stubService false sampleStatus) emptyWorld none
      { dlc_module_infos := [DlcModuleInfo.mk "a", DlcModuleInfo.mk "b"]
        omaha_url := "http://x" }).world.calls =
      [Call.AttemptInstall "http://x" ["a", "b"]] ∧
    (AttemptInstall (stubService false sampleStatus) emptyWorld none
      { dlc_module_infos := [DlcModuleInfo.mk "a", DlcModuleInfo.mk "b"]
        omaha_url := "http://x" }).ret = false :=
  ⟨by decide,
   (C3_attemptInstall_delegates_ids (stubService false sampleStatus) emptyWorld none
     { dlc_module_infos := [DlcModuleInfo.mk "a", DlcModuleInfo.mk "b"]
       omaha_url := "http://x" } (by decide)).1,
   by decide⟩

/-- C4, as stated, fails: for the status record whose payload size is 2^63
bytes the legacy signal carries the size -2^63, not `new_size_bytes`. -/
theorem C4_sendStatusUpdate_size_counterexample :
    SendStatusUpdate stubUpdateStatusToString [] hugeStatus =
        [Signal.StatusUpdate 1600000000 { bits := 4602678819172646912 } "DOWNLOADING" "1.2.3"
            (-9223372036854775808),
          Signal.StatusUpdateAdvanced (ConvertToStatusResult hugeStatus StatusResult.init)] ∧
      SendStatusUpdate stubUpdateStatusToString [] hugeStatus ≠
        [Signal.StatusUpdate hugeStatus.last_checked_time hugeStatus.progress
            (stubUpdateStatusToString hugeStatus.status) hugeStatus.new_version
            (hugeStatus.new_size_bytes : Int),
          Signal.StatusUpdateAdvanced (ConvertToStatusResult hugeStatus StatusResult.init)] := by
  constructor <;> decide

/-- C4, amended: for every status record `s`, `SendStatusUpdate(s)` appends
exactly two signals to the signal log, in this order: the legacy `StatusUpdate`
carrying `s.last_checked_time`, `s.progress`, the name of `s.status`,
`s.new_version` and `s.new_size_bytes` converted to a signed 64-bit integer
(which is `s.new_size_bytes` itself whenever that is below 2^63), then
`StatusUpdateAdvanced` carrying the wire message converted from `s`. The
arguments of the legacy signal are the fields of that same wire message, and
its operation string is the name of the message's `current_operation`. -/
theorem C4_sendStatusUpdate_two_signals (UpdateStatusToString : UpdateStatus → String)
    (signals : List Signal) (s : UpdateEngineStatus) :
    SendStatusUpdate UpdateStatusToString signals s =
        signals ++
          [Signal.StatusUpdate s.last_checked_time s.progress (UpdateStatusToString s.status)
              s.new_version (toInt64 s.new_size_bytes),
            Signal.StatusUpdateAdvanced (ConvertToStatusResult s StatusResult.init)] ∧
      (s.new_size_bytes < 2 ^ 63 →
        SendStatusUpdate UpdateStatusToString signals s =
          signals ++
            [Signal.StatusUpdate s.last_checked_time s.progress (UpdateStatusToString s.status)
                s.new_version (s.new_size_bytes : Int),
              Signal.StatusUpdateAdvanced (ConvertToStatusResult s StatusResult.init)]) ∧
      SendStatusUpdate UpdateStatusToString signals s =
        signals ++
          [Signal.StatusUpdate (ConvertToStatusResult s StatusResult.init).last_checked_time
              (ConvertToStatusResult s StatusResult.init).progress
              (UpdateStatusToString
                (ConvertToStatusResult s StatusResult.init).current_operation.toUpdateStatus)
              (ConvertToStatusResult s StatusResult.init).new_version
              (ConvertToStatusResult s StatusResult.init).new_size,
            Signal.StatusUpdateAdvanced (ConvertToStatusResult s StatusResult.init)] ∧
      (SendStatusUpdate UpdateStatusToString signals s).length = signals.length + 2 := by
  have h := sendStatusUpdate_eq UpdateStatusToString signals s
  refine ⟨h, fun hlt => ?_, ?_, ?_⟩
  · rw [h, toInt64_of_lt _ hlt]
  · rw [h]
    simp [convertToStatusResult_eq, Operation.toUpdateStatus]
  · rw [h]
    simp

/-- The amended C4 at a concrete input: for the sample record (4096 bytes) the
two signals are the legacy one with size 4096 and the structured one. -/
theorem C4_sendStatusUpdate_two_signals_witness :
    sampleStatus.new_size_bytes < 2 ^ 63 ∧
    SendStatusUpdate stubUpdateStatusToString [] sampleStatus =
      [] ++
        [Signal.StatusUpdate sampleStatus.last_checked_time sampleStatus.progress
            (stubUpdateStatusToString sampleStatus.status) sampleStatus.new_version
            (sampleStatus.new_size_bytes : Int),
          Signal.StatusUpdateAdvanced (ConvertToStatusResult sampleStatus StatusResult.init)] :=
  ⟨by decide,
   (C4_sendStatusUpdate_two_signals stubUpdateStatusToString [] sampleStatus).2.1 (by decide)⟩

/-- C5: when the collaborator's `GetStatus` succeeds and stores the same status
record `s` for the call made by `GetStatus` and for the call made by
`GetStatusAdvanced`, both return true and their results agree: the legacy
last-checked time, progress, new version and new size are the corresponding
fields of the structured message, and the legacy operation string is the name
of the structured message's `current_operation`. -/
theorem C5_getStatus_agrees_with_advanced {σ : Type} (common_ : UpdateEngineService σ)
    (UpdateStatusToString : UpdateStatus → String) (status1 status2 : UpdateEngineStatus)
    (w1 w2 : World σ) (error1 error2 : ErrorPtr) (out : StatusOut) (out_status : StatusResult)
    (s : UpdateEngineStatus)
    (hret1 : (common_.GetStatus error1 w1.common).ret = true)
    (hout1 : (common_.GetStatus error1 w1.common).out = some s)
    (hret2 : (common_.GetStatus error2 w2.common).ret = true)
    (hout2 : (common_.GetStatus error2 w2.common).out = some s) :
    (GetStatus common_ UpdateStatusToString status1 w1 error1 out).ret = true ∧
      (GetStatusAdvanced common_ status2 w2 error2 out_status).ret = true ∧
      (GetStatus common_ UpdateStatusToString status1 w1 error1 out).out.out_last_checked_time =
        (GetStatusAdvanced common_ status2 w2 error2 out_status).out.last_checked_time ∧
      (GetStatus common_ UpdateStatusToString status1 w1 error1 out).out.out_progress =
        (GetStatusAdvanced common_ status2 w2 error2 out_status).out.progress ∧
      (GetStatus common_ UpdateStatusToString status1 w1 error1 out).out.out_current_operation =
        UpdateStatusToString
          (GetStatusAdvanced common_ status2 w2 error2
            out_status).out.current_operation.toUpdateStatus ∧
      (GetStatus common_ UpdateStatusToString status1 w1 error1 out).out.out_new_version =
        (GetStatusAdvanced common_ status2 w2 error2 out_status).out.new_version ∧
      (GetStatus common_ UpdateStatusToString status1 w1 error1 out).out.out_new_size =
        (GetStatusAdvanced common_ status2 w2 error2 out_status).out.new_size := by
  simp [GetStatus, GetStatusAdvanced, hret1, hout1, hret2, hout2, convertToStatusResult_eq,
    Operation.toUpdateStatus]

/-- C5 at a concrete input: against a collaborator that reports the sample
record, both calls succeed and the legacy operation string is the name of the
structured operation. -/
theorem C5_getStatus_agrees_with_advanced_witness :
    (GetStatus (stubService true sampleStatus) stubUpdateStatusToString hugeStatus emptyWorld
        none (StatusOut.mk 0 (Double.mk 0) "" "" 0)).out =
      StatusOut.mk 1600000000 (Double.mk 4602678819172646912) "DOWNLOADING" "1.2.3" 4096 ∧
    (GetStatus (stubService true sampleStatus) stubUpdateStatusToString hugeStatus emptyWorld
        none (StatusOut.mk 0 (Double.mk 0) "" "" 0)).out.out_current_operation =
      stubUpdateStatusToString
        (GetStatusAdvanced (stubService true sampleStatus) hugeStatus emptyWorld none
          StatusResult.init).out.current_operation.toUpdateStatus :=
  ⟨by decide,
   (C5_getStatus_agrees_with_advanced (stubService true sampleStatus) stubUpdateStatusToString
      hugeStatus hugeStatus emptyWorld emptyWorld none none (StatusOut.mk 0 (Double.mk 0) "" "" 0)
      StatusResult.init sampleStatus rfl rfl rfl rfl).2.2.2.2.1⟩

/-- C6: for every status record `s` (so for every one whose status is a
recognized value), converting `s` to the wire message, casting the wire
`current_operation` back to the internal enumeration and taking its name gives
the same string as the name of `s.status`; the cast from the internal
enumeration to the wire enumeration and back is the identity; and the
operation string of the legacy signal sent by `SendStatusUpdate`, which is
computed that way, is the name of `s.status`. -/
theorem C6_operation_name_round_trip (UpdateStatusToString : UpdateStatus → String)
    (s : UpdateEngineStatus) (out_status : StatusResult) (signals : List Signal) :
    UpdateStatusToString (ConvertToStatusResult s out_status).current_operation.toUpdateStatus =
        UpdateStatusToString s.status ∧
      (ConvertToStatusResult s out_status).current_operation.toUpdateStatus = s.status ∧
      s.status.toOperation.toUpdateStatus = s.status ∧
      (∃ rest : List Signal,
        SendStatusUpdate UpdateStatusToString signals s =
          signals ++
            Signal.StatusUpdate (ConvertToStatusResult s StatusResult.init).last_checked_time
              (ConvertToStatusResult s StatusResult.init).progress
              (UpdateStatusToString s.status)
              (ConvertToStatusResult s StatusResult.init).new_version
              (ConvertToStatusResult s StatusResult.init).new_size :: rest) := by
  refine ⟨rfl, rfl, rfl,
    [Signal.StatusUpdateAdvanced (ConvertToStatusResult s StatusResult.init)], ?_⟩
  rw [sendStatusUpdate_eq]
  rfl

/-- C8: when the collaborator's `GetStatus` fails, `GetStatus` and
`GetStatusAdvanced` each return false, leave in the error exactly what the
collaborator left there, and leave every out-parameter (the five of the legacy
call, the wire message of the structured call) as it was before the call. -/
theorem C8_getStatus_failure_propagates {σ : Type} (common_ : UpdateEngineService σ)
    (UpdateStatusToString : UpdateStatus → String) (status : UpdateEngineStatus)
    (w : World σ) (error : ErrorPtr) (out : StatusOut) (out_status : StatusResult)
    (h : (common_.GetStatus error w.common).ret = false) :
    (GetStatus common_ UpdateStatusToString status w error out).ret = false ∧
      (GetStatus common_ UpdateStatusToString status w error out).error =
        (common_.GetStatus error w.common).error ∧
      (GetStatus common_ UpdateStatusToString status w error out).out = out ∧
      (GetStatusAdvanced common_ status w error out_status).ret = false ∧
      (GetStatusAdvanced common_ status w error out_status).error =
        (common_.GetStatus error w.common).error ∧
      (GetStatusAdvanced common_ status w error out_status).out = out_status := by
  simp [GetStatus, GetStatusAdvanced, h]

/-- C8 at a concrete input: against a failing collaborator the legacy call
returns false with the collaborator's error and the out-parameters it was
given. -/
theorem C8_getStatus_failure_propagates_witness :
    ((stubService false sampleStatus).GetStatus none emptyWorld.common).ret = false ∧
    (GetStatus (stubService false sampleStatus) stubUpdateStatusToString hugeStatus emptyWorld
        none (StatusOut.mk 7 (Double.mk 1) "old" "0.9" 12)).ret = false ∧
    (GetStatus (stubService false sampleStatus) stubUpdateStatusToString hugeStatus emptyWorld
        none (StatusOut.mk 7 (Double.mk 1) "old" "0.9" 12)).error =
      ((stubService false sampleStatus).GetStatus none emptyWorld.common).error ∧
    (GetStatus (stubService false sampleStatus) stubUpdateStatusToString hugeStatus emptyWorld
        none (StatusOut.mk 7 (Double.mk 1) "old" "0.9" 12)).out =
      StatusOut.mk 7 (Double.mk 1) "old" "0.9" 12 ∧
    (GetStatusAdvanced (stubService false sampleStatus) hugeStatus emptyWorld none
        StatusResult.init).ret = false ∧
    (GetStatusAdvanced (stubService false sampleStatus) hugeStatus emptyWorld none
        StatusResult.init).error =
      ((stubService false sampleStatus).GetStatus none emptyWorld.common).error ∧
    (GetStatusAdvanced (stubService false sampleStatus) hugeStatus emptyWorld none
        StatusResult.init).out = StatusResult.init :=
  ⟨rfl,
   C8_getStatus_failure_propagates (stubService false sampleStatus) stubUpdateStatusToString
     hugeStatus emptyWorld none (StatusOut.mk 7 (Double.mk 1) "old" "0.9" 12) StatusResult.init
     rfl⟩

/-- C10, as stated, fails: for the status record whose payload size is 2^63
bytes the wire field `new_size` is -2^63, not `new_size_bytes`. -/
theorem C10_convertToStatusResult_size_counterexample :
    (ConvertToStatusResult hugeStatus StatusResult.init).new_size = -9223372036854775808 ∧
      (ConvertToStatusResult hugeStatus StatusResult.init).new_size ≠
        (hugeStatus.new_size_bytes : Int) := by
  constructor <;> decide

/-- C10, amended: `ConvertToStatusResult` is a total function whose result is
determined by the status record alone (it does not depend on what the message
held before), and for every status record `s` the fields `last_checked_time`,
`progress`, `new_version`, `is_enterprise_rollback` and `is_install` of the
result are those of `s`, `current_operation` has the numeric value of
`s.status`, and `new_size` is `s.new_size_bytes` converted to a signed 64-bit
integer, which is `s.new_size_bytes` itself whenever that is below 2^63. Each
wire field is a function of the one field of `s` it corresponds to. -/
theorem C10_convertToStatusResult_fields (s : UpdateEngineStatus) (m m2 : StatusResult) :
    ConvertToStatusResult s m = ConvertToStatusResult s m2 ∧
      ConvertToStatusResult s m =
        { last_checked_time := s.last_checked_time
          progress := s.progress
          current_operation := { code := s.status.code }
          new_version := s.new_version
          new_size := toInt64 s.new_size_bytes
          is_enterprise_rollback := s.is_enterprise_rollback
          is_install := s.is_install } ∧
      (s.new_size_bytes < 2 ^ 63 →
        (ConvertToStatusResult s m).new_size = (s.new_size_bytes : Int)) := by
  refine ⟨rfl, rfl, fun h => ?_⟩
  rw [convertToStatusResult_eq]
  exact toInt64_of_lt _ h

/-- The amended C10 at a concrete input: the sample record (4096 bytes) gives
the wire size 4096. -/
theorem C10_convertToStatusResult_fields_witness :
    sampleStatus.new_size_bytes < 2 ^ 63 ∧
    (ConvertToStatusResult sampleStatus StatusResult.init).new_size = 4096 :=
  ⟨by decide, (C10_convertToStatusResult_fields sampleStatus StatusResult.init
    StatusResult.init).2.2 (by decide)⟩

/-- C9: every method of `DBusUpdateEngineService` (the operations exposed on
the bus), on every input and whatever the collaborator answers, invokes the
collaborator at most once. `AttemptUpdate`, `AttemptUpdateWithFlags`,
`GetStatus`, `GetStatusAdvanced` and `AttemptInstall` on a request without an
empty id invoke it exactly once: the call log grows by exactly that call, the
collaborator is left in the state of that one reply, and the return value and
error are those of that reply (for the two status methods the out-parameters
are the old ones on failure and computed from the stored record on success).
`AttemptInstall` on a request with an empty id invokes it zero times: call log
and collaborator state are unchanged and the local error is returned with
false. Each directly delegating method (`AttemptRollback`, `CanRollback`,
`ResetStatus`, `RebootIfNeeded`, `SetChannel`, `GetChannel`, `GetCohortHint`,
`SetCohortHint`, `SetP2PUpdatePermission`, `GetP2PUpdatePermission`,
`SetUpdateOverCellularPermission`, `SetUpdateOverCellularTarget`,
`GetUpdateOverCellularPermission`, `GetDurationSinceUpdate`, `GetPrevVersion`,
`GetRollbackPartition`, `GetLastAttemptError`, `GetEolStatus`) makes that call
with the caller's arguments unchanged, and its return value, out-value and
error are exactly those of the collaborator. -/
theorem C9_every_method_calls_once {σ : Type} (common_ : UpdateEngineService σ)
    (kFlagNonInteractive : Int) (UpdateStatusToString : UpdateStatus → String)
    (status : UpdateEngineStatus) (w : World σ) (error : ErrorPtr)
    (in_app_version in_omaha_url : String) (in_flags_as_int : Int) (request : DlcModuleList)
    (out : StatusOut) (out_status : StatusResult)
    (in_bool out_bool : Bool) (in_string out_string : String) (in_int out_int : Int) :
    CallsOnce w (Call.AttemptUpdate in_app_version in_omaha_url 0)
        (common_.AttemptUpdate error in_app_version in_omaha_url 0 w.common)
        (AttemptUpdate common_ kFlagNonInteractive w error in_app_version in_omaha_url) ∧
      CallsOnce w
        (Call.AttemptUpdate in_app_version in_omaha_url
          (if in_flags_as_int % 2 = 1 then kFlagNonInteractive else 0))
        (common_.AttemptUpdate error in_app_version in_omaha_url
          (if in_flags_as_int % 2 = 1 then kFlagNonInteractive else 0) w.common)
        (AttemptUpdateWithFlags common_ kFlagNonInteractive w error in_app_version in_omaha_url
          in_flags_as_int) ∧
      (if request.dlc_module_infos.any (fun m => decide (m.dlc_id = "")) = true then
        (AttemptInstall common_ w error request).ret = false ∧
          (AttemptInstall common_ w error request).error =
            Error.Create "update_engine" "INTERNAL" "Empty DLC ID passed." ∧
          (AttemptInstall common_ w error request).world.calls = w.calls ∧
          (AttemptInstall common_ w error request).world.common = w.common
       else
        ForwardsOnce w
          (Call.AttemptInstall request.omaha_url
            (request.dlc_module_infos.map DlcModuleInfo.dlc_id))
          (common_.AttemptInstall error request.omaha_url
            (request.dlc_module_infos.map DlcModuleInfo.dlc_id) w.common) ()
          (AttemptInstall common_ w error request)) ∧
      CallsOnce w Call.GetStatus (common_.GetStatus error w.common)
        (GetStatus common_ UpdateStatusToString status w error out) ∧
      (GetStatus common_ UpdateStatusToString status w error out).out =
        (if (common_.GetStatus error w.common).ret = true then
          { out_last_checked_time :=
              ((common_.GetStatus error w.common).out.getD status).last_checked_time
            out_progress := ((common_.GetStatus error w.common).out.getD status).progress
            out_current_operation :=
              UpdateStatusToString ((common_.GetStatus error w.common).out.getD status).status
            out_new_version := ((common_.GetStatus error w.common).out.getD status).new_version
            out_new_size :=
              toInt64 ((common_.GetStatus error w.common).out.getD status).new_size_bytes }
         else out) ∧
      CallsOnce w Call.GetStatus (common_.GetStatus error w.common)
        (GetStatusAdvanced common_ status w error out_status) ∧
      (GetStatusAdvanced common_ status w error out_status).out =
        (if (common_.GetStatus error w.common).ret = true then
          ConvertToStatusResult ((common_.GetStatus error w.common).out.getD status) out_status
         else out_status) ∧
      ForwardsOnce w (Call.AttemptRollback in_bool)
        (common_.AttemptRollback error in_bool w.common) ()
        (AttemptRollback common_ w error in_bool) ∧
      ForwardsOnce w Call.CanRollback (common_.CanRollback error w.common) out_bool
        (CanRollback common_ w error out_bool) ∧
      ForwardsOnce w Call.ResetStatus (common_.ResetStatus error w.common) ()
        (ResetStatus common_ w error) ∧
      ForwardsOnce w Call.RebootIfNeeded (common_.RebootIfNeeded error w.common) ()
        (RebootIfNeeded common_ w error) ∧
      ForwardsOnce w (Call.SetChannel in_string in_bool)
        (common_.SetChannel error in_string in_bool w.common) ()
        (SetChannel common_ w error in_string in_bool) ∧
      ForwardsOnce w (Call.GetChannel in_bool) (common_.GetChannel error in_bool w.common)
        out_string (GetChannel common_ w error in_bool out_string) ∧
      ForwardsOnce w Call.GetCohortHint (common_.GetCohortHint error w.common) out_string
        (GetCohortHint common_ w error out_string) ∧
      ForwardsOnce w (Call.SetCohortHint in_string)
        (common_.SetCohortHint error in_string w.common) ()
        (SetCohortHint common_ w error in_string) ∧
      ForwardsOnce w (Call.SetP2PUpdatePermission in_bool)
        (common_.SetP2PUpdatePermission error in_bool w.common) ()
        (SetP2PUpdatePermission common_ w error in_bool) ∧
      ForwardsOnce w Call.GetP2PUpdatePermission
        (common_.GetP2PUpdatePermission error w.common) out_bool
        (GetP2PUpdatePermission common_ w error out_bool) ∧
      ForwardsOnce w (Call.SetUpdateOverCellularPermission in_bool)
        (common_.SetUpdateOverCellularPermission error in_bool w.common) ()
        (SetUpdateOverCellularPermission common_ w error in_bool) ∧
      ForwardsOnce w (Call.SetUpdateOverCellularTarget in_string in_int)
        (common_.SetUpdateOverCellularTarget error in_string in_int w.common) ()
        (SetUpdateOverCellularTarget common_ w error in_string in_int) ∧
      ForwardsOnce w Call.GetUpdateOverCellularPermission
        (common_.GetUpdateOverCellularPermission error w.common) out_bool
        (GetUpdateOverCellularPermission common_ w error out_bool) ∧
      ForwardsOnce w Call.GetDurationSinceUpdate
        (common_.GetDurationSinceUpdate error w.common) out_int
        (GetDurationSinceUpdate common_ w error out_int) ∧
      ForwardsOnce w Call.GetPrevVersion (common_.GetPrevVersion error w.common) out_string
        (GetPrevVersion common_ w error out_string) ∧
      ForwardsOnce w Call.GetRollbackPartition (common_.GetRollbackPartition error w.common)
        out_string (GetRollbackPartition common_ w error out_string) ∧
      ForwardsOnce w Call.GetLastAttemptError (common_.GetLastAttemptError error w.common)
        out_int (GetLastAttemptError common_ w error out_int) ∧
      ForwardsOnce w Call.GetEolStatus (common_.GetEolStatus error w.common) out_int
        (GetEolStatus common_ w error out_int) := by
  have hzero : AttemptUpdate common_ kFlagNonInteractive w error in_app_version in_omaha_url =
      AttemptUpdateWithFlags common_ kFlagNonInteractive w error in_app_version in_omaha_url
        0 := rfl
  refine ⟨?_, ?_, ?_, ?_, ?_, ?_, ?_, ?_⟩
  · rw [hzero, attemptUpdateWithFlags_eq]
    simp [CallsOnce]
  · rw [attemptUpdateWithFlags_eq]
    exact ⟨rfl, rfl, rfl, rfl⟩
  · by_cases h : ∃ m ∈ request.dlc_module_infos, m.dlc_id = ""
    · have hany : request.dlc_module_infos.any (fun m => decide (m.dlc_id = "")) = true := by
        simpa using h
      rw [if_pos hany]
      unfold AttemptInstall
      rw [collectDlcIds_of_empty_id _ _ h]
      exact ⟨rfl, rfl, rfl, rfl⟩
    · have h2 : ∀ m ∈ request.dlc_module_infos, m.dlc_id ≠ "" :=
        fun m hm hme => h ⟨m, hm, hme⟩
      have hany : ¬ request.dlc_module_infos.any (fun m => decide (m.dlc_id = "")) = true := by
        simpa using h2
      rw [if_neg hany]
      unfold AttemptInstall
      rw [collectDlcIds_of_nonempty_ids _ _ h2]
      simpa using forwardsOnce_delegate w _ _ ()
  · cases hr : (common_.GetStatus error w.common).ret <;> simp [CallsOnce, GetStatus, hr]
  · cases hr : (common_.GetStatus error w.common).ret <;> simp [GetStatus, hr]
  · cases hr : (common_.GetStatus error w.common).ret <;>
      simp [CallsOnce, GetStatusAdvanced, hr]
  · cases hr : (common_.GetStatus error w.common).ret <;> simp [GetStatusAdvanced, hr]
  · exact ⟨forwardsOnce_delegate _ _ _ _, forwardsOnce_delegate _ _ _ _,
      forwardsOnce_delegate _ _ _ _, forwardsOnce_delegate _ _ _ _,
      forwardsOnce_delegate _ _ _ _, forwardsOnce_delegate _ _ _ _,
      forwardsOnce_delegate _ _ _ _, forwardsOnce_delegate _ _ _ _,
      forwardsOnce_delegate _ _ _ _, forwardsOnce_delegate _ _ _ _,
      forwardsOnce_delegate _ _ _ _, forwardsOnce_delegate _ _ _ _,
      forwardsOnce_delegate _ _ _ _, forwardsOnce_delegate _ _ _ _,
      forwardsOnce_delegate _ _ _ _, forwardsOnce_delegate _ _ _ _,
      forwardsOnce_delegate _ _ _ _, forwardsOnce_delegate _ _ _ _⟩

end chromeos_update_engine
